import Mathlib

/-!
Shallow embedding of the transform-and-load pipeline of the leanplum data export
repository (`leanplum_data_export/base_exporter.py`, `export.py`,
`export_streaming.py`), together with proofs settling the frozen claims about it.

JSON values are modelled by an inductive type; Python dictionaries are modelled as
insertion-ordered association lists (Python 3.7+ dict semantics), and fallible
Python operations (`d[k]`, `int(x)`, `.get` on a non-dict, iteration of a
non-iterable) return `Except String`.  JSON numbers are modelled as integers: no
claim under consideration depends on fractional values, and every numeric value
the extractors touch is either copied verbatim or coerced with `int(...)` from an
integer or an integer-valued string.
-/

namespace Leanplum

/-- A JSON value as produced by `json.loads`.  Python `None` is `Json.null`;
objects keep insertion order. -/
inductive Json where
  | null : Json
  | bool : Bool → Json
  | num : Int → Json
  | str : String → Json
  | arr : List Json → Json
  | obj : List (String × Json) → Json
deriving Repr

/-- First-match lookup in an insertion-ordered association list (Python dict keys
are unique, so first match is the only match). -/
def assocLookup {α : Type} (kvs : List (String × α)) (k : String) : Option α :=
  match kvs with
  | [] => none
  | (k1, v) :: rest => if k1 = k then some v else assocLookup rest k

/-- Python `d.get(k, dflt)`: `AttributeError` when `d` is not a dict. -/
def pyGetD (j : Json) (k : String) (dflt : Json) : Except String Json :=
  match j with
  | .obj kvs => .ok ((assocLookup kvs k).getD dflt)
  | _ => .error "AttributeError: get"

/-- Python `d.get(k)`: returns `None` (JSON null) when the key is absent. -/
def pyGet (j : Json) (k : String) : Except String Json :=
  pyGetD j k .null

/-- Python `d[k]` subscription: `KeyError` when absent, `TypeError` when `d` is
not a dict. -/
def pyIndex (j : Json) (k : String) : Except String Json :=
  match j with
  | .obj kvs =>
    match assocLookup kvs k with
    | some v => .ok v
    | none => .error ("KeyError: " ++ k)
  | _ => .error "TypeError: not subscriptable"

/-- Python `d.items()`: `AttributeError` when `d` is not a dict. -/
def pyItems (j : Json) : Except String (List (String × Json)) :=
  match j with
  | .obj kvs => .ok kvs
  | _ => .error "AttributeError: items"

/-- Python `for x in j`: a list yields its elements, a dict its keys, a string
its one-character substrings; other values raise `TypeError`. -/
def pyIter (j : Json) : Except String (List Json) :=
  match j with
  | .arr xs => .ok xs
  | .obj kvs => .ok (kvs.map (fun kv => .str kv.1))
  | .str s => .ok (s.toList.map (fun c => .str (String.mk [c])))
  | _ => .error "TypeError: not iterable"

/-- Python `int(x)`: integers pass through, booleans map to 0 or 1, strings are
parsed as optionally-signed integer literals (`ValueError` otherwise), every
other value raises `TypeError`.  In particular `int(None)` — the missing-field
case — is an error. -/
def pyInt (j : Json) : Except String Int :=
  match j with
  | .num n => .ok n
  | .bool b => .ok (if b then 1 else 0)
  | .str s =>
    match s.toInt? with
    | some n => .ok n
    | none => .error "ValueError: invalid literal for int"
  | _ => .error "TypeError: int argument"

/-- A row handed to `csv.DictWriter.writerow`: a Python dict in insertion order. -/
abbrev Row : Type := List (String × Json)

/-- Lookup of a column value in a row. -/
def rowGet (r : Row) (k : String) : Option Json :=
  assocLookup r k

/-- Python dict assignment `r[k] = v`: update in place when the key exists,
append otherwise. -/
def dictInsert (r : Row) (k : String) (v : Json) : Row :=
  if r.any (fun kv => kv.1 = k) then
    r.map (fun kv => if kv.1 = k then (k, v) else kv)
  else
    r ++ [(k, v)]

/-- `BaseLeanplumExporter.extract_user_attributes` (the streaming override is
identical code): one row per entry of `session_data.get("userAttributes", {})`,
with the session id coerced to integer inside the loop. -/
def extract_user_attributes (d : Json) : Except String (List Row) := do
  let ua ← pyGetD d "userAttributes" (.obj [])
  let kvs ← pyItems ua
  kvs.mapM (fun kv => do
    let sid ← pyInt (← pyIndex d "sessionId")
    pure [("sessionId", Json.num sid), ("name", Json.str kv.1), ("value", kv.2)])

/-- `BaseLeanplumExporter.extract_states` (and the identical streaming
override): returns the empty list for every input. -/
def extract_states (_d : Json) : List Row :=
  []

/-- `BaseLeanplumExporter.extract_experiments` (the streaming override is
identical code). -/
def extract_experiments (d : Json) : Except String (List Row) := do
  let exps ← pyGetD d "experiments" (.arr [])
  let xs ← pyIter exps
  xs.mapM (fun ex => do
    let sid ← pyInt (← pyIndex d "sessionId")
    let eid ← pyIndex ex "id"
    let vid ← pyIndex ex "variantId"
    pure [("sessionId", Json.num sid), ("experimentId", eid), ("variantId", vid)])

/-- The body of the inner loop of `extract_events` for one event of one state:
the event row in the order its dict literal is built, and the parameter rows
produced from `event.get("parameters", {})`, keyed by the event's identifier. -/
def processEvent (d state event : Json) : Except String (Row × List Row) := do
  let sid ← pyInt (← pyIndex d "sessionId")
  let stateId ← pyIndex state "stateId"
  let eventId ← pyIndex event "eventId"
  let eventName ← pyIndex event "name"
  let start ← pyIndex event "time"
  let value ← pyIndex event "value"
  let info ← pyGet event "info"
  let tuf ← pyGet event "timeUntilFirstForUser"
  let er : Row := [("sessionId", Json.num sid), ("stateId", stateId),
    ("eventId", eventId), ("eventName", eventName), ("start", start),
    ("value", value), ("info", info), ("timeUntilFirstForUser", tuf)]
  let params ← pyItems (← pyGetD event "parameters" (.obj []))
  pure (er, params.map (fun kv =>
    [("eventId", eventId), ("name", Json.str kv.1), ("value", kv.2)]))

/-- The body of the outer loop of `extract_events` for one state: processes the
events of `state.get("events", [])` in list order. -/
def processState (d state : Json) : Except String (List (Row × List Row)) := do
  let evJson ← pyGetD state "events" (.arr [])
  let evl ← pyIter evJson
  evl.mapM (processEvent d state)

/-- `BaseLeanplumExporter.extract_events` (the streaming override is identical
code): iterates `session_data.get("states", [])` in list order and the events of
each state in list order; the two accumulator lists the Python loops append to
are recovered as the two flattened projections. -/
def extract_events (d : Json) : Except String (List Row × List Row) := do
  let stsJson ← pyGetD d "states" (.arr [])
  let sts ← pyIter stsJson
  let pairs ← sts.mapM (processState d)
  let flat := pairs.flatten
  pure (flat.map Prod.fst, (flat.map Prod.snd).flatten)

/-- `BaseLeanplumExporter.extract_session`: rename mapping from destination
column name to source field name. -/
def field_name_mappings : List (String × String) :=
  [("timezoneOffset", "timezoneOffsetSeconds"), ("osName", "systemName"),
   ("osVersion", "systemVersion"), ("userStart", "firstRun"), ("start", "time")]

/-- `BaseLeanplumExporter.extract_session`: for each declared column, look the
value up under the renamed source field when a mapping exists, else under the
same name; then set `isDeveloper` to `session_data.get("isDeveloper", False)`. -/
def base_extract_session (d : Json) (cols : List String) : Except String Row := do
  let s ← cols.foldlM (fun acc name => do
    let v ← pyGet d ((assocLookup field_name_mappings name).getD name)
    pure (dictInsert acc name v)) []
  let dev ← pyGetD d "isDeveloper" (.bool false)
  pure (dictInsert s "isDeveloper" dev)

/-- `StreamingLeanplumExporter.extract_session` (the override used by the
streaming pipeline): a plain `session_data.get(name)` per declared column, with
no rename mapping and no developer-flag default. -/
def streaming_extract_session (d : Json) (cols : List String) : Except String Row :=
  cols.foldlM (fun acc name => do
    let v ← pyGet d name
    pure (dictInsert acc name v)) []

/-- The per-writer output of one `write_to_csv` call: the rows handed to each
record type's `csv.DictWriter`, in write order. -/
structure CsvWrites where
  userattributes : List Row
  states : List Row
  experiments : List Row
  sessions : List Row
  events : List Row
  eventparameters : List Row

/-- The writer routing of `StreamingLeanplumExporter.write_to_csv`, given the
values the extractor calls produced: rows from `extract_states` are written to
the `sessions` writer (the loop body indexes `csv_writers["sessions"]`), the
single session row follows them, and nothing is ever written to the `states`
writer. -/
def write_to_csv_given (uas stateRows exps : List Row) (sess : Row)
    (evs eps : List Row) : CsvWrites :=
  ⟨uas, [], exps, stateRows ++ [sess], evs, eps⟩

/-- `StreamingLeanplumExporter.write_to_csv`: runs the five extractor calls in
source order over one decoded session record and routes their rows to the
per-record-type writers.  `schemas["sessions"]` is passed as `sessionCols`. -/
def write_to_csv (d : Json) (sessionCols : List String) : Except String CsvWrites := do
  let uas ← extract_user_attributes d
  let stateRows := extract_states d
  let exps ← extract_experiments d
  let sess ← streaming_extract_session d sessionCols
  let (evs, eps) ← extract_events d
  pure (write_to_csv_given uas stateRows exps sess evs eps)

/-- CLAIM C7 theorem.  For every session record, state extraction yields the
empty sequence: the state-row part of decomposition has length 0 regardless of
the record's contents. -/
theorem extract_states_always_empty (d : Json) :
    extract_states d = [] ∧ (extract_states d).length = 0 := by
  exact ⟨rfl, rfl⟩

/-- A row of the destination warehouse table: the staged payload together with
the computed `load_date` partition column appended by the load select. -/
structure WRow where
  payload : String
  load_date : String
deriving Repr, DecidableEq

/-- Destination-table state: `none` when the table does not exist yet. -/
abbrev WTable : Type := Option (List WRow)

/-- `BaseLeanplumExporter.load_tables` restricted to one destination table: when
the table does not exist, `CREATE TABLE ... PARTITION BY load_date AS SELECT`
creates it with the select output; otherwise `INSERT INTO` appends the select
output.  The select reads the staged rows and adds the parsed date as the
partition column. -/
def load_table (st : WTable) (staged : List String) (date : String) : WTable :=
  match st with
  | none => some (staged.map (fun r => ⟨r, date⟩))
  | some rows => some (rows ++ staged.map (fun r => ⟨r, date⟩))

/-- `BaseLeanplumExporter.delete_existing_data` restricted to one table:
`DELETE ... WHERE load_date = PARSE_DATE(date)` removes the date's partition. -/
def delete_existing_data (st : WTable) (date : String) : WTable :=
  st.map (fun rows => rows.filter (fun r => r.load_date ≠ date))

/-- The destination-table effect of the warehouse phase at the end of
`StreamingLeanplumExporter.export`: it runs `create_external_tables`,
`load_tables` and `drop_external_tables`.  The external-table steps touch only
the temporary dataset, so the destination table is affected by `load_tables`
alone; no `delete_existing_data` call appears in this method. -/
def streaming_export_load (st : WTable) (staged : List String) (date : String) : WTable :=
  load_table st staged date

/-- The destination-table effect of the historical `LeanplumExporter.export`:
`delete_existing_data` runs before `load_tables`. -/
def historical_export_load (st : WTable) (staged : List String) (date : String) : WTable :=
  load_table (delete_existing_data st date) staged date

/-- Rows freshly loaded for a date all carry that date, so a partition delete
for the same date removes exactly them. -/
theorem filter_ne_date_of_loaded (staged : List String) (date : String) :
    (staged.map (fun r => (⟨r, date⟩ : WRow))).filter
      (fun r => r.load_date ≠ date) = [] := by
  induction staged with
  | nil => rfl
  | cons r rest ih => simp [ih]

/-- Filtering with the same predicate twice equals filtering once. -/
theorem filter_twice_eq {α : Type} (p : α → Bool) (l : List α) :
    (l.filter p).filter p = l.filter p :=
  List.filter_eq_self.mpr (fun _ ha => List.of_mem_filter ha)

/-- CLAIM C1 theorem (code bug).  The streaming export's warehouse phase never
deletes the date's partition: starting from a missing table, loading the same
one staged row for the same date twice leaves two copies in the partition, so
load-then-load differs from a single load.  By contrast the delete-then-load
sequence of the historical export driver is idempotent for every starting
state, which is what the claim (and the repository's own streaming-export test,
which asserts `delete_existing_data` is called) describes. -/
theorem streaming_load_skips_partition_delete :
    streaming_export_load (streaming_export_load none ["r1"] "20200601") ["r1"] "20200601"
        = some [⟨"r1", "20200601"⟩, ⟨"r1", "20200601"⟩]
    ∧ streaming_export_load (streaming_export_load none ["r1"] "20200601") ["r1"] "20200601"
        ≠ streaming_export_load none ["r1"] "20200601"
    ∧ ∀ (st : WTable) (staged : List String) (date : String),
        historical_export_load (historical_export_load st staged date) staged date
          = historical_export_load st staged date := by
  refine ⟨rfl, by decide, ?_⟩
  intro st staged date
  cases st with
  | none =>
    simp [historical_export_load, delete_existing_data, load_table,
      filter_ne_date_of_loaded]
  | some rows =>
    simp [historical_export_load, delete_existing_data, load_table,
      List.filter_append, filter_ne_date_of_loaded, filter_twice_eq]

/-- Character-list comparison against an expected literal head. -/
def headMatches : List Char → List Char → Bool
  | [], _ => true
  | p :: ps, c :: cs => p = c && headMatches ps cs
  | _ :: _, [] => false

/-- Recognizes a suffix beginning with a slash, eight decimal digits, a slash,
and the literal `export-` (the anchored middle of the data-file pattern). -/
def slashDateSlashExport (cs : List Char) : Bool :=
  match cs with
  | '/' :: rest =>
    (rest.take 8).length = 8 && (rest.take 8).all Char.isDigit &&
      (match rest.drop 8 with
       | '/' :: r2 => headMatches "export-".toList r2
       | _ => false)
  | _ => false

/-- Recognizes a string-final suffix of the shape `-output-` followed by one or
more decimal digits. -/
def outputDigitsTail (cs : List Char) : Bool :=
  headMatches "-output-".toList cs &&
    (cs.drop 8 ≠ [] && (cs.drop 8).all Char.isDigit)

/-- The compiled pattern `filename_re` of `StreamingLeanplumExporter.export`,
anchored full match of `^.*STAR/\d{8}/export-.*-output-([0-9]+)$` (`.*` written
out): some suffix of the key starts with `/`, an eight-digit date, `/export-`,
and after that prelude some string-final suffix is `-output-` plus a nonempty
digit run.  Digits are modelled as ASCII digits. -/
def data_file_match (key : String) : Bool :=
  (key.toList.tails).any (fun t =>
    slashDateSlashExport t &&
      ((t.drop 17).tails).any outputDigitsTail)

/-- The per-file loop of `StreamingLeanplumExporter.export`: iterate the
enumerated keys in order, `continue` past keys that do not match
`filename_re`, transform and stage the first matching key, then hit the
unconditional `break` that ends the loop.  Returns the keys for which
`transform_data_file` is invoked.  The loop reads no record of previous runs:
there is no import-ledger lookup anywhere in the method. -/
def export_transformed_keys (data_file_keys : List String) : List String :=
  match data_file_keys with
  | [] => []
  | key :: rest =>
    if data_file_match key then [key] else export_transformed_keys rest

/-- CLAIM C2 theorem (code bug).  The export consults no import ledger: its
transformed-file set is a pure function of the enumerated keys, so a rerun for
the same date over the same bucket listing re-invokes the transform stage on a
well-formed data file even when a previous run already processed it.  At the
concrete key below, every run — first or rerun — transforms the file. -/
theorem export_rerun_retransforms_imported_file :
    data_file_match "firefox/20200601/export-1-abc-output-0" = true
    ∧ export_transformed_keys ["firefox/20200601/export-1-abc-output-0"]
        = ["firefox/20200601/export-1-abc-output-0"]
    ∧ "firefox/20200601/export-1-abc-output-0"
        ∈ export_transformed_keys ["firefox/20200601/export-1-abc-output-0"] := by
  refine ⟨by decide, by decide, by decide⟩

/-- CLAIM C3 theorem (code bug).  With two well-formed data files enumerated,
only the first is transformed: the loop body ends in an unconditional `break`
(marked `TODO: remove` in the source), so the second matching key is never
processed, although it matches the data-file pattern. -/
theorem export_processes_only_first_data_file :
    data_file_match "firefox/20200601/export-2-dsaf-output-0" = true
    ∧ export_transformed_keys
        ["firefox/20200601/export-1-abc-output-0",
         "firefox/20200601/export-2-dsaf-output-0"]
        = ["firefox/20200601/export-1-abc-output-0"]
    ∧ "firefox/20200601/export-2-dsaf-output-0"
        ∉ export_transformed_keys
            ["firefox/20200601/export-1-abc-output-0",
             "firefox/20200601/export-2-dsaf-output-0"] := by
  refine ⟨by decide, by decide, by decide⟩

/-- The schema directory contents, abstracting the filesystem read of
`BaseLeanplumExporter.parse_schema`: a finite map from data-type name to the
parsed JSON array of field objects of `<name>.schema.json`.  The repository's
schema files are data shipped next to the sources; a missing file raises
`FileNotFoundError` inside `open`, which maps to `assocLookup = none` here. -/
abbrev SchemaDir : Type := List (String × List Json)

/-- `BaseLeanplumExporter.parse_schema`: return the listed fields of the data
type's schema file, or re-raise `FileNotFoundError` as
`ValueError("Unrecognized table name encountered: ...")`. -/
def parse_schema (dir : SchemaDir) (data_type : String) : Except String (List Json) :=
  match assocLookup dir data_type with
  | some fields => .ok fields
  | none => .error ("Unrecognized table name encountered: " ++ data_type)

/-- CLAIM C9 theorem.  For a record-type name with no schema descriptor,
`parse_schema` raises the unrecognized-table configuration error and never
returns a value; for a record type with a descriptor, it returns the
descriptor's ordered field list unchanged. -/
theorem parse_schema_spec (dir : SchemaDir) (data_type : String) :
    (assocLookup dir data_type = none →
      parse_schema dir data_type
        = .error ("Unrecognized table name encountered: " ++ data_type)
      ∧ ∀ fields, parse_schema dir data_type ≠ .ok fields)
    ∧ ∀ fields, assocLookup dir data_type = some fields →
        parse_schema dir data_type = .ok fields := by
  constructor
  · intro h
    constructor
    · simp [parse_schema, h]
    · intro fields
      simp [parse_schema, h]
  · intro fields h
    simp [parse_schema, h]

/-- Witness for `parse_schema_spec` at a concrete one-entry schema directory:
the `sessions` descriptor is returned as listed and the unknown name `bogus`
raises the configuration error. -/
theorem parse_schema_spec_witness :
    parse_schema [("sessions", [Json.obj [("name", Json.str "sessionId")]])] "sessions"
        = .ok [Json.obj [("name", Json.str "sessionId")]]
    ∧ parse_schema [("sessions", [Json.obj [("name", Json.str "sessionId")]])] "bogus"
        = .error "Unrecognized table name encountered: bogus" := by
  constructor
  · exact (parse_schema_spec [("sessions", [Json.obj [("name", Json.str "sessionId")]])]
      "sessions").2 [Json.obj [("name", Json.str "sessionId")]] (by rfl)
  · exact ((parse_schema_spec [("sessions", [Json.obj [("name", Json.str "sessionId")]])]
      "bogus").1 (by rfl)).1

/-- Binding a successful Except computation applies the continuation. -/
theorem exBind_ok {α β : Type} (a : α) (f : α → Except String β) :
    (Except.ok a >>= f) = f a := rfl

/-- Binding a failed Except computation propagates the error. -/
theorem exBind_error {α β : Type} (e : String) (f : α → Except String β) :
    ((Except.error e : Except String α) >>= f) = Except.error e := rfl

/-- Inversion for a successful Except bind: the first stage succeeded and the
continuation succeeded on its value. -/
theorem exBind_ok_inv {α β : Type} {x : Except String α} {f : α → Except String β}
    {b : β} (h : (x >>= f) = .ok b) : ∃ a, x = .ok a ∧ f a = .ok b := by
  cases x with
  | error e => exact absurd h (by simp [exBind_error])
  | ok a => exact ⟨a, rfl, h⟩

/-- mapM over Except succeeds exactly when every element maps successfully,
elementwise in order. -/
theorem exceptMapM_ok_iff {α β : Type} (f : α → Except String β) :
    ∀ (l : List α) (l2 : List β),
      l.mapM f = .ok l2 ↔ List.Forall₂ (fun a b => f a = .ok b) l l2 := by
  intro l
  induction l with
  | nil =>
    intro l2
    rw [List.mapM_nil]
    constructor
    · intro h
      have h2 : (Except.ok ([] : List β) : Except String (List β)) = .ok l2 := h
      cases h2
      exact List.Forall₂.nil
    · intro h
      cases h
      rfl
  | cons a l ih =>
    intro l2
    rw [List.mapM_cons]
    constructor
    · intro h
      rcases exBind_ok_inv h with ⟨b, hb, h⟩
      rcases exBind_ok_inv h with ⟨bs, hbs, h⟩
      have h2 : (Except.ok (b :: bs) : Except String (List β)) = .ok l2 := h
      cases h2
      exact List.Forall₂.cons hb ((ih bs).mp hbs)
    · intro h
      cases h with
      | cons hab htail =>
        rw [hab, exBind_ok, (ih _).mpr htail, exBind_ok]
        rfl

/-- mapM over Except fails whenever some element fails (the reported error may
come from an earlier element). -/
theorem exceptMapM_error_of_mem {α β : Type} (f : α → Except String β) :
    ∀ (l : List α) (x : α), x ∈ l → (∃ e, f x = .error e) →
      ∃ e2, l.mapM f = .error e2 := by
  intro l
  induction l with
  | nil =>
    intro x hx
    cases hx
  | cons a l ih =>
    intro x hx hfe
    rw [List.mapM_cons]
    cases h1 : f a with
    | error e => exact ⟨e, rfl⟩
    | ok b =>
      rcases List.mem_cons.mp hx with rfl | hx2
      · rcases hfe with ⟨e, he⟩
        rw [h1] at he
        cases he
      · rcases ih x hx2 hfe with ⟨e2, h2⟩
        refine ⟨e2, ?_⟩
        rw [exBind_ok, h2]
        rfl

/-- Looking a key up in concatenated association lists tries the left list
first. -/
theorem assocLookup_append {α : Type} (r s : List (String × α)) (k : String) :
    assocLookup (r ++ s) k =
      match assocLookup r k with
      | some v => some v
      | none => assocLookup s k := by
  induction r with
  | nil => rfl
  | cons kv rest ih =>
    obtain ⟨k1, v1⟩ := kv
    rw [List.cons_append]
    by_cases h : k1 = k
    · simp [assocLookup, h]
    · simp only [assocLookup, if_neg h]
      exact ih

/-- A list with no entry for a key looks that key up to nothing. -/
theorem assocLookup_eq_none_of_not_any {α : Type} (r : List (String × α)) (k : String)
    (h : r.any (fun kv => kv.1 = k) = false) : assocLookup r k = none := by
  induction r with
  | nil => rfl
  | cons kv rest ih =>
    obtain ⟨k1, v1⟩ := kv
    rw [List.any_cons, Bool.or_eq_false_iff] at h
    have hk : ¬ k1 = k := by
      have h3 := h.1
      simp only [decide_eq_false_iff_not] at h3
      exact h3
    simp only [assocLookup, if_neg hk]
    exact ih h.2

/-- In-place update rewrites the first (and only) entry of an existing key. -/
theorem assocLookup_update_of_any {α : Type} (r : List (String × α)) (k : String) (v : α)
    (h : r.any (fun kv => kv.1 = k) = true) :
    assocLookup (r.map (fun kv => if kv.1 = k then (k, v) else kv)) k = some v := by
  induction r with
  | nil => cases h
  | cons kv rest ih =>
    obtain ⟨k1, v1⟩ := kv
    rw [List.map_cons]
    by_cases hk : k1 = k
    · subst hk
      rw [show (if (k1, v1).1 = k1 then (k1, v) else (k1, v1)) = (k1, v) from by simp]
      simp [assocLookup]
    · rw [show (if (k1, v1).1 = k then (k, v) else (k1, v1)) = (k1, v1) from by simp [hk]]
      rw [List.any_cons] at h
      simp only [Bool.or_eq_true] at h
      have h2 : rest.any (fun kv => kv.1 = k) = true := by
        rcases h with h1 | h1
        · simp only [decide_eq_true_eq] at h1
          exact absurd h1 hk
        · exact h1
      simp only [assocLookup, if_neg hk]
      exact ih h2

/-- In-place update of one key leaves lookups of other keys unchanged. -/
theorem assocLookup_update_ne {α : Type} (r : List (String × α)) (k k2 : String) (v : α)
    (hne : k2 ≠ k) :
    assocLookup (r.map (fun kv => if kv.1 = k then (k, v) else kv)) k2
      = assocLookup r k2 := by
  induction r with
  | nil => rfl
  | cons kv rest ih =>
    obtain ⟨k1, v1⟩ := kv
    rw [List.map_cons]
    by_cases hk : k1 = k
    · subst hk
      rw [show (if (k1, v1).1 = k1 then (k1, v) else (k1, v1)) = (k1, v) from by simp]
      have hk12 : ¬ (k1 = k2) := fun hh => hne hh.symm
      simp only [assocLookup, if_neg hk12]
      exact ih
    · rw [show (if (k1, v1).1 = k then (k, v) else (k1, v1)) = (k1, v1) from by simp [hk]]
      by_cases hk2 : k1 = k2
      · simp only [assocLookup, if_pos hk2]
      · simp only [assocLookup, if_neg hk2]
        exact ih

/-- Reading back the key just assigned by Python dict assignment. -/
theorem rowGet_dictInsert_self (r : Row) (k : String) (v : Json) :
    rowGet (dictInsert r k v) k = some v := by
  by_cases h : r.any (fun kv => kv.1 = k) = true
  · unfold dictInsert rowGet
    rw [if_pos h]
    exact assocLookup_update_of_any r k v h
  · unfold dictInsert rowGet
    rw [if_neg h]
    rw [assocLookup_append,
      assocLookup_eq_none_of_not_any r k (Bool.eq_false_iff.mpr h)]
    simp [assocLookup]

/-- Python dict assignment leaves other keys unchanged. -/
theorem rowGet_dictInsert_ne (r : Row) (k k2 : String) (v : Json) (hne : k2 ≠ k) :
    rowGet (dictInsert r k v) k2 = rowGet r k2 := by
  by_cases h : r.any (fun kv => kv.1 = k) = true
  · unfold dictInsert rowGet
    rw [if_pos h]
    exact assocLookup_update_ne r k k2 v hne
  · unfold dictInsert rowGet
    rw [if_neg h]
    rw [assocLookup_append]
    cases h2 : assocLookup r k2 with
    | some v2 => rfl
    | none =>
      have hk : ¬ (k = k2) := fun hh => hne hh.symm
      simp [assocLookup, hk]

/-- The pure part of Except: `pure` builds a success value. -/
theorem exPure_eq_ok {α : Type} (a : α) : (pure a : Except String α) = Except.ok a := rfl

/-- An Except fold whose every step succeeds is the success of the pure fold. -/
theorem exceptFoldlM_eq_foldl {σ α : Type} (f : σ → α → Except String σ) (g : σ → α → σ)
    (hf : ∀ s a, f s a = .ok (g s a)) :
    ∀ (l : List α) (init : σ), List.foldlM f init l = .ok (l.foldl g init) := by
  intro l
  induction l with
  | nil => intro init; rfl
  | cons a l ih =>
    intro init
    rw [List.foldlM_cons, hf, exBind_ok, ih]
    rfl

/-- The pure result of the session-extractor fold: each declared column is
assigned, in order, the value a per-column source function produces. -/
def sessionFold (valf : String → Json) (init : Row) (cols : List String) : Row :=
  cols.foldl (fun acc name => dictInsert acc name (valf name)) init

/-- Columns not assigned by the fold keep their initial lookup. -/
theorem sessionFold_rowGet_of_not_mem (valf : String → Json) :
    ∀ (cols : List String) (c : String), c ∉ cols → ∀ init : Row,
      rowGet (sessionFold valf init cols) c = rowGet init c := by
  intro cols
  induction cols with
  | nil =>
    intro c h init
    rfl
  | cons c0 rest ih =>
    intro c h init
    have hne : c ≠ c0 := fun hh => h (hh ▸ List.mem_cons_self c0 rest)
    have h2 : c ∉ rest := fun hh => h (List.mem_cons_of_mem c0 hh)
    rw [show sessionFold valf init (c0 :: rest)
        = sessionFold valf (dictInsert init c0 (valf c0)) rest from rfl]
    rw [ih c h2 (dictInsert init c0 (valf c0)),
      rowGet_dictInsert_ne init c0 c (valf c0) hne]

/-- Every declared column ends up holding the value its source function
produces (column values depend on the column name only, so re-assignments are
idempotent). -/
theorem sessionFold_rowGet_of_mem (valf : String → Json) :
    ∀ (cols : List String) (c : String), c ∈ cols → ∀ init : Row,
      rowGet (sessionFold valf init cols) c = some (valf c) := by
  intro cols
  induction cols with
  | nil =>
    intro c h
    cases h
  | cons c0 rest ih =>
    intro c h init
    by_cases h2 : c ∈ rest
    · exact ih c h2 _
    · have hc : c = c0 := by
        rcases List.mem_cons.mp h with h3 | h3
        · exact h3
        · exact absurd h3 h2
      subst hc
      rw [show sessionFold valf init (c :: rest)
          = sessionFold valf (dictInsert init c (valf c)) rest from rfl]
      rw [sessionFold_rowGet_of_not_mem valf rest c h2, rowGet_dictInsert_self]

/-- The streaming session extractor on a JSON-object record never fails and
assigns every declared column its same-named source value (null if absent). -/
theorem streaming_extract_session_eq (kvs : List (String × Json)) (cols : List String) :
    streaming_extract_session (.obj kvs) cols
      = .ok (sessionFold (fun c => (assocLookup kvs c).getD .null) [] cols) :=
  exceptFoldlM_eq_foldl _ _ (fun _ _ => rfl) cols []

/-- The base session extractor on a JSON-object record never fails: it runs the
renamed-source fold and then assigns the defaulted developer flag. -/
theorem base_extract_session_eq (kvs : List (String × Json)) (cols : List String) :
    base_extract_session (.obj kvs) cols
      = .ok (dictInsert
          (sessionFold (fun c =>
            (assocLookup kvs ((assocLookup field_name_mappings c).getD c)).getD .null)
            [] cols)
          "isDeveloper" ((assocLookup kvs "isDeveloper").getD (.bool false))) := by
  have h1 := exceptFoldlM_eq_foldl
    (fun acc name => do
      let v ← pyGet (Json.obj kvs) ((assocLookup field_name_mappings name).getD name)
      pure (dictInsert acc name v))
    (fun acc name => dictInsert acc name
      ((assocLookup kvs ((assocLookup field_name_mappings name).getD name)).getD .null))
    (fun _ _ => rfl) cols []
  unfold base_extract_session
  rw [h1, exBind_ok]
  rfl

/-- `BaseLeanplumExporter.DROP_COLS`: per-table column exclusions applied by the
warehouse loader (`sessions` drops the two geo-precision columns). -/
def DROP_COLS (table : String) : List String :=
  if table = "sessions" then ["lat", "lon"] else []

/-- The effective destination column set of the `load_tables` select: the SQL
`SELECT * EXCEPT (...)` exclusion clause built from `DROP_COLS` is modelled as
filtering the excluded names out of the staged column list. -/
def loaded_columns (table : String) (cols : List String) : List String :=
  cols.filter (fun c => !((DROP_COLS table).contains c))

/-- CLAIM C4 counterexample.  The session extractor does include the redacted
geo-precision columns when the declared column list contains them: at this
concrete record, both the base and the streaming extractors emit `lat` (and
`lon`) in the output row, with the looked-up value. -/
theorem extract_session_emits_declared_geo_cols_cex :
    base_extract_session (Json.obj [("lat", Json.str "67.85"), ("lon", Json.str "-100.13")])
        ["lat", "lon"]
      = .ok [("lat", Json.str "67.85"), ("lon", Json.str "-100.13"),
             ("isDeveloper", Json.bool false)]
    ∧ rowGet [("lat", Json.str "67.85"), ("lon", Json.str "-100.13"),
             ("isDeveloper", Json.bool false)] "lat" = some (Json.str "67.85")
    ∧ streaming_extract_session (Json.obj [("lat", Json.str "67.85")]) ["lat"]
      = .ok [("lat", Json.str "67.85")] :=
  ⟨rfl, rfl, rfl⟩

/-- CLAIM C4 theorem (amended).  Both session extractors emit every declared
column — geo columns included — as a key of the output row; the lat/lon
redaction instead happens in the warehouse loader, whose effective `sessions`
column set (the `SELECT * EXCEPT` clause built from `DROP_COLS`) never contains
`lat` or `lon`. -/
theorem extract_session_declared_cols_and_loader_redaction :
    (∀ (kvs : List (String × Json)) (cols : List String) (out : Row),
        base_extract_session (.obj kvs) cols = .ok out →
        ∀ c ∈ cols, ∃ v, rowGet out c = some v)
    ∧ (∀ (kvs : List (String × Json)) (cols : List String) (out : Row),
        streaming_extract_session (.obj kvs) cols = .ok out →
        ∀ c ∈ cols, ∃ v, rowGet out c = some v)
    ∧ (∀ cols : List String, "lat" ∉ loaded_columns "sessions" cols
        ∧ "lon" ∉ loaded_columns "sessions" cols) := by
  refine ⟨?_, ?_, ?_⟩
  · intro kvs cols out h c hc
    rw [base_extract_session_eq] at h
    cases h
    by_cases hdev : c = "isDeveloper"
    · subst hdev
      exact ⟨_, rowGet_dictInsert_self _ _ _⟩
    · rw [rowGet_dictInsert_ne _ _ _ _ hdev,
        sessionFold_rowGet_of_mem _ cols c hc []]
      exact ⟨_, rfl⟩
  · intro kvs cols out h c hc
    rw [streaming_extract_session_eq] at h
    cases h
    rw [sessionFold_rowGet_of_mem _ cols c hc []]
    exact ⟨_, rfl⟩
  · intro cols
    constructor
    · intro h
      simp [loaded_columns, DROP_COLS, List.mem_filter] at h
    · intro h
      simp [loaded_columns, DROP_COLS, List.mem_filter] at h

/-- Witness for `extract_session_declared_cols_and_loader_redaction` at a
concrete record and column list: extraction succeeds and the declared `lat`
column is present in the output row. -/
theorem extract_session_declared_cols_witness :
    base_extract_session (Json.obj []) ["lat"]
      = .ok [("lat", Json.null), ("isDeveloper", Json.bool false)]
    ∧ ∃ v, rowGet [("lat", Json.null), ("isDeveloper", Json.bool false)] "lat" = some v := by
  refine ⟨rfl, ?_⟩
  exact extract_session_declared_cols_and_loader_redaction.1 [] ["lat"] _ rfl "lat"
    (by decide)

/-- CLAIM C6 counterexample.  The streaming pipeline's session extractor (the
override actually used by `write_to_csv`) applies no rename mapping and no
developer-flag default: for a record holding the renamed source field
`timezoneOffsetSeconds`, the declared `timezoneOffset` column comes out null
instead of the renamed value, and a missing `isDeveloper` comes out null
instead of false. -/
theorem streaming_extract_session_no_rename_cex :
    streaming_extract_session (Json.obj [("timezoneOffsetSeconds", Json.num (-25200))])
        ["timezoneOffset", "isDeveloper"]
      = .ok [("timezoneOffset", Json.null), ("isDeveloper", Json.null)]
    ∧ ([("timezoneOffset", Json.null), ("isDeveloper", Json.null)] : Row)
      ≠ [("timezoneOffset", Json.num (-25200)), ("isDeveloper", Json.bool false)] := by
  refine ⟨rfl, ?_⟩
  intro h
  injection h with h1 h2
  injection h1 with ha hb
  exact Json.noConfusion hb

/-- CLAIM C6 theorem (amended).  The base exporter's session extractor looks
each declared column up under its renamed source field when a rename mapping
exists, else under the identical name, yields null for missing source fields,
and sets the developer flag to false when absent; the streaming exporter's
override instead looks every declared column up under the identical name only,
with null for missing fields and no developer default. -/
theorem extract_session_rename_and_default_spec :
    (∀ (kvs : List (String × Json)) (cols : List String) (out : Row),
        base_extract_session (.obj kvs) cols = .ok out →
        (∀ c ∈ cols, c ≠ "isDeveloper" →
          rowGet out c = some ((assocLookup kvs
            ((assocLookup field_name_mappings c).getD c)).getD .null))
        ∧ rowGet out "isDeveloper"
            = some ((assocLookup kvs "isDeveloper").getD (.bool false)))
    ∧ (∀ (kvs : List (String × Json)) (cols : List String) (out : Row),
        streaming_extract_session (.obj kvs) cols = .ok out →
        ∀ c ∈ cols, rowGet out c = some ((assocLookup kvs c).getD .null)) := by
  constructor
  · intro kvs cols out h
    rw [base_extract_session_eq] at h
    cases h
    constructor
    · intro c hc hdev
      rw [rowGet_dictInsert_ne _ _ _ _ hdev,
        sessionFold_rowGet_of_mem _ cols c hc []]
    · exact rowGet_dictInsert_self _ _ _
  · intro kvs cols out h
    rw [streaming_extract_session_eq] at h
    cases h
    intro c hc
    exact sessionFold_rowGet_of_mem _ cols c hc []

/-- Witness for `extract_session_rename_and_default_spec` at a concrete record:
the base extractor reads `timezoneOffset` through its rename mapping from
`timezoneOffsetSeconds` and defaults the absent developer flag to false. -/
theorem extract_session_rename_and_default_witness :
    base_extract_session (Json.obj [("timezoneOffsetSeconds", Json.num (-25200))])
        ["timezoneOffset"]
      = .ok [("timezoneOffset", Json.num (-25200)), ("isDeveloper", Json.bool false)]
    ∧ rowGet [("timezoneOffset", Json.num (-25200)), ("isDeveloper", Json.bool false)]
        "timezoneOffset" = some (Json.num (-25200))
    ∧ rowGet [("timezoneOffset", Json.num (-25200)), ("isDeveloper", Json.bool false)]
        "isDeveloper" = some (Json.bool false) := by
  refine ⟨rfl, ?_, ?_⟩
  · exact (extract_session_rename_and_default_spec.1
      [("timezoneOffsetSeconds", Json.num (-25200))] ["timezoneOffset"] _ rfl).1
      "timezoneOffset" (by decide) (by decide)
  · exact (extract_session_rename_and_default_spec.1
      [("timezoneOffsetSeconds", Json.num (-25200))] ["timezoneOffset"] _ rfl).2

/-- Inversion of a successful `processEvent`: the parameter rows are exactly
one row per entry of the event's parameter map, each keyed by the same event
identifier that the event row carries. -/
theorem processEvent_inv (d st ev : Json) (er : Row) (prs2 : List Row)
    (h : processEvent d st ev = .ok (er, prs2)) :
    ∃ eid pj entries,
      rowGet er "eventId" = some eid ∧
      pyGetD ev "parameters" (.obj []) = .ok pj ∧
      pyItems pj = .ok entries ∧
      prs2 = entries.map (fun kv =>
        [("eventId", eid), ("name", Json.str kv.1), ("value", kv.2)]) ∧
      prs2.length = entries.length ∧
      ∀ p ∈ prs2, rowGet p "eventId" = some eid := by
  unfold processEvent at h
  rcases exBind_ok_inv h with ⟨sidj, h1, h⟩
  rcases exBind_ok_inv h with ⟨sid, h2, h⟩
  rcases exBind_ok_inv h with ⟨stateId, h3, h⟩
  rcases exBind_ok_inv h with ⟨eventId, h4, h⟩
  rcases exBind_ok_inv h with ⟨eventName, h5, h⟩
  rcases exBind_ok_inv h with ⟨start, h6, h⟩
  rcases exBind_ok_inv h with ⟨value, h7, h⟩
  rcases exBind_ok_inv h with ⟨info, h8, h⟩
  rcases exBind_ok_inv h with ⟨tuf, h9, h⟩
  rcases exBind_ok_inv h with ⟨pj, h10, h⟩
  rcases exBind_ok_inv h with ⟨entries, h11, h⟩
  simp only [exPure_eq_ok, Except.ok.injEq, Prod.mk.injEq] at h
  obtain ⟨h12, h13⟩ := h
  subst h12
  subst h13
  refine ⟨eventId, pj, entries, rfl, h10, h11, rfl, (List.length_map _ _).symm ▸ rfl, ?_⟩
  intro p hp
  rcases List.mem_map.mp hp with ⟨kv, hkv, rfl⟩
  rfl

/-- Inversion of a successful `processState`: one processed pair per event of
the state's event list, elementwise in list order. -/
theorem processState_inv (d st : Json) (prs : List (Row × List Row))
    (h : processState d st = .ok prs) :
    ∃ evJson evl, pyGetD st "events" (.arr []) = .ok evJson ∧
      pyIter evJson = .ok evl ∧
      List.Forall₂ (fun ev pr => processEvent d st ev = .ok pr) evl prs ∧
      prs.length = evl.length := by
  unfold processState at h
  rcases exBind_ok_inv h with ⟨evJson, h1, h⟩
  rcases exBind_ok_inv h with ⟨evl, h2, h⟩
  have h3 := (exceptMapM_ok_iff _ evl prs).mp h
  exact ⟨evJson, evl, h1, h2, h3, (List.Forall₂.length_eq h3).symm⟩

/-- CLAIM C8 theorem.  A successful event extraction processes the states in
list order and the events of each state in list order, emitting one event row
per event; the event-parameter rows of an event are one per entry of that
event's parameter map, keyed by the event's identifier (the same value the
event row carries under `eventId`), and their count equals the size of the
parameter map. -/
theorem extract_events_rows_and_params_spec (d : Json) (evs eps : List Row)
    (h : extract_events d = .ok (evs, eps)) :
    (∃ stsJson sts pairss,
      pyGetD d "states" (.arr []) = .ok stsJson ∧
      pyIter stsJson = .ok sts ∧
      List.Forall₂ (fun st prs => processState d st = .ok prs) sts pairss ∧
      evs = (pairss.flatten).map Prod.fst ∧
      eps = ((pairss.flatten).map Prod.snd).flatten)
    ∧ (∀ st prs, processState d st = .ok prs →
        ∃ evJson evl, pyGetD st "events" (.arr []) = .ok evJson ∧
          pyIter evJson = .ok evl ∧
          List.Forall₂ (fun ev pr => processEvent d st ev = .ok pr) evl prs ∧
          prs.length = evl.length)
    ∧ (∀ st ev er prs2, processEvent d st ev = .ok (er, prs2) →
        ∃ eid pj entries,
          rowGet er "eventId" = some eid ∧
          pyGetD ev "parameters" (.obj []) = .ok pj ∧
          pyItems pj = .ok entries ∧
          prs2.length = entries.length ∧
          ∀ p ∈ prs2, rowGet p "eventId" = some eid) := by
  refine ⟨?_, ?_, ?_⟩
  · unfold extract_events at h
    rcases exBind_ok_inv h with ⟨stsJson, h1, h⟩
    rcases exBind_ok_inv h with ⟨sts, h2, h⟩
    rcases exBind_ok_inv h with ⟨pairss, h3, h⟩
    simp only [exPure_eq_ok, Except.ok.injEq, Prod.mk.injEq] at h
    obtain ⟨h4, h5⟩ := h
    exact ⟨stsJson, sts, pairss, h1, h2, (exceptMapM_ok_iff _ sts pairss).mp h3,
      h4.symm, h5.symm⟩
  · intro st prs hps
    exact processState_inv d st prs hps
  · intro st ev er prs2 hpe
    rcases processEvent_inv d st ev er prs2 hpe with ⟨eid, pj, entries, ha, hb, hc, _, he, hf⟩
    exact ⟨eid, pj, entries, ha, hb, hc, he, hf⟩

/-- A concrete sample record for the event-extraction witness: one state with
one event carrying two parameters. -/
def sampleEventRecord : Json :=
  Json.obj [("sessionId", Json.num 1),
    ("states", Json.arr [Json.obj [("stateId", Json.num 5),
      ("events", Json.arr [Json.obj [("eventId", Json.num 77),
        ("name", Json.str "E"), ("time", Json.str "t"), ("value", Json.num 0),
        ("parameters", Json.obj [("p1", Json.str "v1"), ("p2", Json.str "v2")])]])]])]

/-- The event rows `extract_events` produces for `sampleEventRecord`. -/
def sampleEventRows : List Row :=
  [[("sessionId", Json.num 1), ("stateId", Json.num 5),
    ("eventId", Json.num 77), ("eventName", Json.str "E"),
    ("start", Json.str "t"), ("value", Json.num 0), ("info", Json.null),
    ("timeUntilFirstForUser", Json.null)]]

/-- The event-parameter rows `extract_events` produces for `sampleEventRecord`. -/
def sampleParamRows : List Row :=
  [[("eventId", Json.num 77), ("name", Json.str "p1"), ("value", Json.str "v1")],
   [("eventId", Json.num 77), ("name", Json.str "p2"), ("value", Json.str "v2")]]

/-- Witness for `extract_events_rows_and_params_spec` at `sampleEventRecord`:
extraction succeeds with one event row and two parameter rows keyed by the
event's identifier. -/
theorem extract_events_rows_and_params_witness :
    extract_events sampleEventRecord = .ok (sampleEventRows, sampleParamRows)
    ∧ ((∃ stsJson sts pairss,
      pyGetD sampleEventRecord "states" (.arr []) = .ok stsJson ∧
      pyIter stsJson = .ok sts ∧
      List.Forall₂ (fun st prs => processState sampleEventRecord st = .ok prs) sts pairss ∧
      sampleEventRows = (pairss.flatten).map Prod.fst ∧
      sampleParamRows = ((pairss.flatten).map Prod.snd).flatten)
    ∧ (∀ st prs, processState sampleEventRecord st = .ok prs →
        ∃ evJson evl, pyGetD st "events" (.arr []) = .ok evJson ∧
          pyIter evJson = .ok evl ∧
          List.Forall₂ (fun ev pr => processEvent sampleEventRecord st ev = .ok pr) evl prs ∧
          prs.length = evl.length)
    ∧ (∀ st ev er prs2, processEvent sampleEventRecord st ev = .ok (er, prs2) →
        ∃ eid pj entries,
          rowGet er "eventId" = some eid ∧
          pyGetD ev "parameters" (.obj []) = .ok pj ∧
          pyItems pj = .ok entries ∧
          prs2.length = entries.length ∧
          ∀ p ∈ prs2, rowGet p "eventId" = some eid)) :=
  ⟨rfl, extract_events_rows_and_params_spec sampleEventRecord sampleEventRows
    sampleParamRows rfl⟩

/-- CLAIM C10 theorem.  Every record `write_to_csv` processes successfully
contributes exactly one data row to the `sessions` writer and none to the
`states` writer; moreover the writer routing sends any rows state extraction
produced to the `sessions` writer (ahead of the session row), never to the
`states` writer. -/
theorem write_to_csv_row_routing (d : Json) (cols : List String) (out : CsvWrites)
    (h : write_to_csv d cols = .ok out) :
    out.sessions.length = 1 ∧ out.states = [] ∧
    (∃ sess, out.sessions = extract_states d ++ [sess]) ∧
    (∀ (uas stateRows exps : List Row) (sess : Row) (evs eps : List Row),
      (write_to_csv_given uas stateRows exps sess evs eps).states = []
      ∧ (write_to_csv_given uas stateRows exps sess evs eps).sessions
          = stateRows ++ [sess]) := by
  unfold write_to_csv at h
  rcases exBind_ok_inv h with ⟨uas, h1, h⟩
  rcases exBind_ok_inv h with ⟨exps, h2, h⟩
  rcases exBind_ok_inv h with ⟨sess, h3, h⟩
  rcases exBind_ok_inv h with ⟨p, h4, h⟩
  obtain ⟨evs, eps⟩ := p
  simp only [exPure_eq_ok, Except.ok.injEq] at h
  subst h
  refine ⟨rfl, rfl, ⟨sess, rfl⟩, ?_⟩
  intro uas2 stateRows exps2 sess2 evs2 eps2
  exact ⟨rfl, rfl⟩

/-- Witness for `write_to_csv_row_routing` at a concrete record: the transform
succeeds, the sessions writer receives exactly the one session row, and the
states writer receives nothing. -/
theorem write_to_csv_row_routing_witness :
    write_to_csv (Json.obj [("sessionId", Json.str "1")]) ["sessionId"]
      = .ok (write_to_csv_given [] [] [] [("sessionId", Json.str "1")] [] [])
    ∧ ((write_to_csv_given [] [] [] [("sessionId", Json.str "1")] [] []).sessions.length = 1
      ∧ (write_to_csv_given [] [] [] [("sessionId", Json.str "1")] [] []).states = []
      ∧ (∃ sess, (write_to_csv_given [] [] [] [("sessionId", Json.str "1")] [] []).sessions
          = extract_states (Json.obj [("sessionId", Json.str "1")]) ++ [sess])
      ∧ (∀ (uas stateRows exps : List Row) (sess : Row) (evs eps : List Row),
          (write_to_csv_given uas stateRows exps sess evs eps).states = []
          ∧ (write_to_csv_given uas stateRows exps sess evs eps).sessions
              = stateRows ++ [sess])) :=
  ⟨rfl, write_to_csv_row_routing (Json.obj [("sessionId", Json.str "1")]) ["sessionId"]
    (write_to_csv_given [] [] [] [("sessionId", Json.str "1")] [] []) rfl⟩

/-- If any fallible extractor stage of `write_to_csv` fails, the whole
transform of the record fails with an error. -/
theorem write_to_csv_error_of_stages (d : Json) (cols : List String)
    (h : (∃ e, extract_user_attributes d = .error e)
       ∨ (∃ e, extract_experiments d = .error e)
       ∨ (∃ e, extract_events d = .error e)) :
    ∃ e2, write_to_csv d cols = .error e2 := by
  rcases h with ⟨e, he⟩ | ⟨e, he⟩ | ⟨e, he⟩
  · exact ⟨e, by unfold write_to_csv; rw [he, exBind_error]⟩
  · cases hu : extract_user_attributes d with
    | error e2 => exact ⟨e2, by unfold write_to_csv; rw [hu, exBind_error]⟩
    | ok uas => exact ⟨e, by unfold write_to_csv; rw [hu, exBind_ok, he, exBind_error]⟩
  · cases hu : extract_user_attributes d with
    | error e2 => exact ⟨e2, by unfold write_to_csv; rw [hu, exBind_error]⟩
    | ok uas =>
      cases hx : extract_experiments d with
      | error e2 =>
        exact ⟨e2, by unfold write_to_csv; rw [hu, exBind_ok, hx, exBind_error]⟩
      | ok exps =>
        cases hs : streaming_extract_session d cols with
        | error e2 =>
          refine ⟨e2, ?_⟩
          unfold write_to_csv
          rw [hu, exBind_ok, hx, exBind_ok, hs, exBind_error]
        | ok sess =>
          refine ⟨e, ?_⟩
          unfold write_to_csv
          rw [hu, exBind_ok, hx, exBind_ok, hs, exBind_ok, he, exBind_error]

/-- A record with no `userAttributes` field yields no user-attribute rows and
no error (the session-id coercion inside the loop body never runs). -/
theorem extract_user_attributes_absent (kvs : List (String × Json))
    (hua : assocLookup kvs "userAttributes" = none) :
    extract_user_attributes (.obj kvs) = .ok [] := by
  unfold extract_user_attributes
  rw [show pyGetD (.obj kvs) "userAttributes" (.obj []) = .ok (.obj []) from by
    simp [pyGetD, hua], exBind_ok]
  rfl

/-- A record with no `experiments` field yields no experiment rows and no
error. -/
theorem extract_experiments_absent (kvs : List (String × Json))
    (hexp : assocLookup kvs "experiments" = none) :
    extract_experiments (.obj kvs) = .ok [] := by
  unfold extract_experiments
  rw [show pyGetD (.obj kvs) "experiments" (.arr []) = .ok (.arr []) from by
    simp [pyGetD, hexp], exBind_ok]
  rfl

/-- A record with no `states` field yields no event or parameter rows and no
error. -/
theorem extract_events_absent (kvs : List (String × Json))
    (hsts : assocLookup kvs "states" = none) :
    extract_events (.obj kvs) = .ok ([], []) := by
  unfold extract_events
  rw [show pyGetD (.obj kvs) "states" (.arr []) = .ok (.arr []) from by
    simp [pyGetD, hsts], exBind_ok]
  rfl

/-- On a record with none of the nested collections, `write_to_csv` succeeds
and writes only the session row. -/
theorem write_to_csv_ok_of_absent (kvs : List (String × Json)) (cols : List String)
    (hua : assocLookup kvs "userAttributes" = none)
    (hexp : assocLookup kvs "experiments" = none)
    (hsts : assocLookup kvs "states" = none) :
    write_to_csv (.obj kvs) cols
      = .ok (write_to_csv_given [] [] []
          (sessionFold (fun c => (assocLookup kvs c).getD .null) [] cols) [] []) := by
  unfold write_to_csv
  rw [extract_user_attributes_absent kvs hua, exBind_ok,
    extract_experiments_absent kvs hexp, exBind_ok,
    streaming_extract_session_eq kvs cols, exBind_ok,
    extract_events_absent kvs hsts, exBind_ok]
  rfl

/-- A record whose `userAttributes` map is nonempty while `sessionId` is
missing makes user-attribute extraction fail on the id coercion. -/
theorem extract_user_attributes_missing_sid_error (kvs : List (String × Json))
    (ua : String × Json) (uas : List (String × Json))
    (hsid : assocLookup kvs "sessionId" = none)
    (hua : assocLookup kvs "userAttributes" = some (.obj (ua :: uas))) :
    ∃ e, extract_user_attributes (.obj kvs) = .error e := by
  unfold extract_user_attributes
  rw [show pyGetD (.obj kvs) "userAttributes" (.obj []) = .ok (.obj (ua :: uas)) from by
    simp [pyGetD, hua], exBind_ok]
  rw [show pyItems (Json.obj (ua :: uas)) = .ok (ua :: uas) from rfl, exBind_ok]
  refine exceptMapM_error_of_mem _ (ua :: uas) ua (List.mem_cons_self _ _) ?_
  refine ⟨"KeyError: sessionId", ?_⟩
  show (do
    let sid ← pyInt (← pyIndex (Json.obj kvs) "sessionId")
    pure [("sessionId", Json.num sid), ("name", Json.str ua.1), ("value", ua.2)]
    : Except String Row) = _
  rw [show pyIndex (Json.obj kvs) "sessionId" = .error "KeyError: sessionId" from by
    simp [pyIndex, hsid]]
  rfl

/-- A record whose `experiments` list is nonempty while `sessionId` is missing
makes experiment extraction fail on the id coercion. -/
theorem extract_experiments_missing_sid_error (kvs : List (String × Json))
    (ex : Json) (exs : List Json)
    (hsid : assocLookup kvs "sessionId" = none)
    (hexp : assocLookup kvs "experiments" = some (.arr (ex :: exs))) :
    ∃ e, extract_experiments (.obj kvs) = .error e := by
  unfold extract_experiments
  rw [show pyGetD (.obj kvs) "experiments" (.arr []) = .ok (.arr (ex :: exs)) from by
    simp [pyGetD, hexp], exBind_ok]
  rw [show pyIter (Json.arr (ex :: exs)) = .ok (ex :: exs) from rfl, exBind_ok]
  refine exceptMapM_error_of_mem _ (ex :: exs) ex (List.mem_cons_self _ _) ?_
  refine ⟨"KeyError: sessionId", ?_⟩
  show (do
    let sid ← pyInt (← pyIndex (Json.obj kvs) "sessionId")
    let eid ← pyIndex ex "id"
    let vid ← pyIndex ex "variantId"
    pure [("sessionId", Json.num sid), ("experimentId", eid), ("variantId", vid)]
    : Except String Row) = _
  rw [show pyIndex (Json.obj kvs) "sessionId" = .error "KeyError: sessionId" from by
    simp [pyIndex, hsid]]
  rfl

/-- A record with at least one event in some state while `sessionId` is missing
makes event extraction fail on the id coercion. -/
theorem extract_events_missing_sid_error (kvs : List (String × Json))
    (stsJson : Json) (sts : List Json) (st : Json) (evJson : Json)
    (ev : Json) (evtl : List Json)
    (hsid : assocLookup kvs "sessionId" = none)
    (hsts : assocLookup kvs "states" = some stsJson)
    (hiter : pyIter stsJson = .ok sts)
    (hmem : st ∈ sts)
    (hev : pyGetD st "events" (.arr []) = .ok evJson)
    (heviter : pyIter evJson = .ok (ev :: evtl)) :
    ∃ e, extract_events (.obj kvs) = .error e := by
  have hpe : ∃ e, processEvent (.obj kvs) st ev = .error e := by
    refine ⟨"KeyError: sessionId", ?_⟩
    unfold processEvent
    rw [show pyIndex (Json.obj kvs) "sessionId" = .error "KeyError: sessionId" from by
      simp [pyIndex, hsid]]
    rfl
  have hps : ∃ e, processState (.obj kvs) st = .error e := by
    rcases exceptMapM_error_of_mem (processEvent (.obj kvs) st) (ev :: evtl) ev
      (List.mem_cons_self _ _) hpe with ⟨e2, h2⟩
    refine ⟨e2, ?_⟩
    unfold processState
    rw [hev, exBind_ok, heviter, exBind_ok, h2]
  rcases exceptMapM_error_of_mem (processState (.obj kvs)) sts st hmem hps with ⟨e3, h3⟩
  refine ⟨e3, ?_⟩
  unfold extract_events
  rw [show pyGetD (.obj kvs) "states" (.arr []) = .ok stsJson from by
    simp [pyGetD, hsts], exBind_ok, hiter, exBind_ok, h3]
  rfl

/-- CLAIM C5 counterexample.  A session record lacking the session identifier
is not always a hard error: the empty record (no `sessionId`, no nested
collections) passes `write_to_csv` without raising, writing a session row whose
`sessionId` column is null. -/
theorem write_to_csv_missing_session_id_no_error_cex :
    write_to_csv (Json.obj []) ["sessionId"]
      = .ok (write_to_csv_given [] [] [] [("sessionId", Json.null)] [] [])
    ∧ (∀ e, write_to_csv (Json.obj []) ["sessionId"] ≠ .error e)
    ∧ rowGet [("sessionId", Json.null)] "sessionId" = some Json.null := by
  refine ⟨rfl, ?_, rfl⟩
  intro e h
  rw [show write_to_csv (Json.obj []) ["sessionId"]
      = .ok (write_to_csv_given [] [] [] [("sessionId", Json.null)] [] []) from rfl] at h
  cases h

/-- CLAIM C5 theorem (amended).  A record lacking the session identifier is a
hard error exactly when some derived row must coerce the identifier: with at
least one user attribute, at least one experiment, or at least one event in
some state, the transform raises; with none of the `userAttributes`,
`experiments` and `states` fields present, the transform succeeds and the
session row carries a null session id. -/
theorem missing_session_id_error_conditions :
    (∀ (kvs : List (String × Json)) (cols : List String),
      assocLookup kvs "sessionId" = none →
      assocLookup kvs "userAttributes" = none →
      assocLookup kvs "experiments" = none →
      assocLookup kvs "states" = none →
      ∃ sess, write_to_csv (.obj kvs) cols = .ok (write_to_csv_given [] [] [] sess [] [])
        ∧ ("sessionId" ∈ cols → rowGet sess "sessionId" = some Json.null))
    ∧ (∀ (kvs : List (String × Json)) (cols : List String)
        (ua : String × Json) (uas : List (String × Json)),
        assocLookup kvs "sessionId" = none →
        assocLookup kvs "userAttributes" = some (.obj (ua :: uas)) →
        ∃ e, write_to_csv (.obj kvs) cols = .error e)
    ∧ (∀ (kvs : List (String × Json)) (cols : List String) (ex : Json) (exs : List Json),
        assocLookup kvs "sessionId" = none →
        assocLookup kvs "experiments" = some (.arr (ex :: exs)) →
        ∃ e, write_to_csv (.obj kvs) cols = .error e)
    ∧ (∀ (kvs : List (String × Json)) (cols : List String)
        (stsJson : Json) (sts : List Json) (st : Json)
        (evJson ev : Json) (evtl : List Json),
        assocLookup kvs "sessionId" = none →
        assocLookup kvs "states" = some stsJson →
        pyIter stsJson = .ok sts → st ∈ sts →
        pyGetD st "events" (.arr []) = .ok evJson →
        pyIter evJson = .ok (ev :: evtl) →
        ∃ e, write_to_csv (.obj kvs) cols = .error e) := by
  refine ⟨?_, ?_, ?_, ?_⟩
  · intro kvs cols hsid hua hexp hsts
    refine ⟨_, write_to_csv_ok_of_absent kvs cols hua hexp hsts, ?_⟩
    intro hc
    rw [sessionFold_rowGet_of_mem _ cols _ hc [], hsid]
    rfl
  · intro kvs cols ua uas hsid hua
    exact write_to_csv_error_of_stages _ cols
      (Or.inl (extract_user_attributes_missing_sid_error kvs ua uas hsid hua))
  · intro kvs cols ex exs hsid hexp
    exact write_to_csv_error_of_stages _ cols
      (Or.inr (Or.inl (extract_experiments_missing_sid_error kvs ex exs hsid hexp)))
  · intro kvs cols stsJson sts st evJson ev evtl hsid hsts hiter hmem hev heviter
    exact write_to_csv_error_of_stages _ cols
      (Or.inr (Or.inr (extract_events_missing_sid_error kvs stsJson sts st evJson ev evtl
        hsid hsts hiter hmem hev heviter)))

/-- Witness for `missing_session_id_error_conditions` at concrete records: the
empty record transforms successfully with a null session id, and an id-less
record with one user attribute fails. -/
theorem missing_session_id_error_conditions_witness :
    (∃ sess, write_to_csv (Json.obj []) ["deviceId"]
        = .ok (write_to_csv_given [] [] [] sess [] [])
      ∧ ("sessionId" ∈ (["deviceId"] : List String) →
          rowGet sess "sessionId" = some Json.null))
    ∧ (∃ e, write_to_csv
        (Json.obj [("userAttributes", Json.obj [("a", Json.str "x")])]) []
        = .error e) := by
  constructor
  · exact missing_session_id_error_conditions.1 [] ["deviceId"] rfl rfl rfl rfl
  · exact missing_session_id_error_conditions.2.1
      [("userAttributes", Json.obj [("a", Json.str "x")])] []
      ("a", Json.str "x") [] rfl rfl

end Leanplum
